import Mathlib

/-!
Shallow embedding of the carbon-footprint calculator repository
(`MM_transport_emissions.py`, `calculator3.py`, `carbon_footprint_viz.py`).

Numbers are modelled as exact rationals (`ℚ`).  Python `dict` literals become
association lists, `dict.get` a `find?`-based lookup, and a raised exception an
`Option.none` result.  Python's falsy test `if not emission_factor` rejects both
a missing entry (`None`) and a zero factor, and is embedded as such.
The `datetime.now()` timestamp is an external input and is passed in
explicitly as a `Nat` parameter.
-/

/-- Lower-casing of a single character, as Python's `str.lower` acts on the
ASCII letters used by the mode identifiers here. -/
def lowerChar (c : Char) : Char :=
  if 'A' ≤ c ∧ c ≤ 'Z' then Char.ofNat (c.toNat + 32) else c

/-- Model of Python's `str.lower()` (ASCII range, which covers every mode
identifier in the three factor tables). -/
def pylower (s : String) : String :=
  ⟨s.data.map lowerChar⟩

/-- Upper-casing of a single character, as Python's `str.upper` acts on the
ASCII letters used by the mode identifiers here. -/
def upperChar (c : Char) : Char :=
  if 'a' ≤ c ∧ c ≤ 'z' then Char.ofNat (c.toNat - 32) else c

/-- Model of Python's `str.upper()` (ASCII range), used to speak about the
upper-case spelling of a mode identifier. -/
def pyupper (s : String) : String :=
  ⟨s.data.map upperChar⟩

/-- Embedding of `d.get(k)` on a Python dict stored as an association list. -/
def dictGet {α : Type} (d : List (String × α)) (k : String) : Option α :=
  (d.find? (fun p => p.1 == k)).map Prod.snd

/-- Embedding of `d[k] = d.get(k, 0) + v` on a Python dict: bump the first
binding of `k`, or append a fresh binding at the end (Python dicts keep
insertion order). -/
def addToDict (d : List (String × ℚ)) (k : String) (v : ℚ) : List (String × ℚ) :=
  match d with
  | [] => [(k, v)]
  | p :: rest => if p.1 == k then (p.1, p.2 + v) :: rest else p :: addToDict rest k v

/-- Sum of the values of an association list (the values of a Python dict). -/
def sumValues (d : List (String × ℚ)) : ℚ :=
  (d.map Prod.snd).sum

/-- A route segment as stored in `st.session_state.route_segments`:
`{'mode': mode, 'distance': distance, 'weight': weight}`. -/
structure Segment where
  mode : String
  distance : ℚ
  weight : ℚ
deriving Repr, DecidableEq

namespace MM

/-- Embedding of `self.emission_factors` of `MM_transport_emissions.py`
(kg CO2 per tonne-km). -/
def emission_factors : List (String × ℚ) :=
  [("car", 0.158), ("truck", 0.088), ("mini_truck", 0.122), ("railway", 0.023),
   ("seaway", 0.007), ("air", 0.805), ("barge", 0.035)]

/-- Embedding of `self.mode_groups` of `MM_transport_emissions.py`. -/
def mode_groups : List (String × List String) :=
  [("road", ["car", "truck", "mini_truck"]), ("rail", ["railway"]),
   ("maritime", ["seaway", "barge"]), ("air", ["air"])]

/-- Embedding of `self.mode_display_names` of `MM_transport_emissions.py`. -/
def mode_display_names : List (String × String) :=
  [("car", "Car/Van"), ("truck", "Heavy Truck"), ("mini_truck", "Medium Truck"),
   ("railway", "Train"), ("seaway", "Cargo Ship"), ("air", "Air Freight"),
   ("barge", "River Barge")]

/-- Embedding of
`self.display_to_internal = {v: k for k, v in self.mode_display_names.items()}`. -/
def display_to_internal : List (String × String) :=
  mode_display_names.map (fun p => (p.2, p.1))

/-- Embedding of
`next((group for group, modes in self.mode_groups.items() if m in modes), 'other')`
where `m` is the lowercased transport mode. -/
def transport_group_of (m : String) : String :=
  ((mode_groups.find? (fun p => p.2.contains m)).map Prod.fst).getD "other"

/-- The dict returned by `calculate_emissions` of `MM_transport_emissions.py`. -/
structure SegmentResult where
  timestamp : Nat
  transport_mode : String
  display_name : String
  transport_group : String
  weight_kg : ℚ
  distance_km : ℚ
  total_emissions_kg : ℚ
  efficiency_kg_per_tonne_km : ℚ
deriving Repr, DecidableEq

/-- Embedding of `MultimodalCarbonFootprintCalculator.calculate_emissions` of
`MM_transport_emissions.py`.  `ts` stands for `datetime.now()`.  The raised
`ValueError` (truthiness test `if not emission_factor`, which fires on a
missing key and on a zero factor) becomes `none`. -/
def calculate_emissions (ts : Nat) (weight_kg distance_km : ℚ)
    (transport_mode : String) : Option SegmentResult :=
  let weight_tonnes := weight_kg / 1000
  match dictGet emission_factors (pylower transport_mode) with
  | none => none
  | some emission_factor =>
    if emission_factor = 0 then none
    else
      let emissions := weight_tonnes * distance_km * emission_factor
      let efficiency := emissions / (weight_tonnes * distance_km)
      some
        { timestamp := ts
          transport_mode := transport_mode
          display_name := (dictGet mode_display_names transport_mode).getD transport_mode
          transport_group := transport_group_of (pylower transport_mode)
          weight_kg := weight_kg
          distance_km := distance_km
          total_emissions_kg := emissions
          efficiency_kg_per_tonne_km := efficiency }

/-- The fields of a segment result that carry the computed quantities named by
the spec: total emissions, efficiency and transport group. -/
def numeric_fields (r : SegmentResult) : ℚ × ℚ × String :=
  (r.total_emissions_kg, r.efficiency_kg_per_tonne_km, r.transport_group)

/-- A segment result with its display timestamp normalized away: all the other
fields are kept as they are. -/
def stripTimestamp (r : SegmentResult) : SegmentResult :=
  { r with timestamp := 0 }

/-- Embedding of
`internal_mode = calculator.display_to_internal.get(display_name, r['transport_mode'])`,
the key under which `main` accumulates `mode_emissions`. -/
def internal_mode (r : SegmentResult) : String :=
  (dictGet display_to_internal r.display_name).getD r.transport_mode

/-- The running totals and breakdown dicts accumulated by `main` of
`MM_transport_emissions.py` over the segment results. -/
structure RouteTotals where
  total_emissions_kg : ℚ
  total_distance_km : ℚ
  total_weight_kg : ℚ
  emissions_by_mode : List (String × ℚ)
  emissions_by_group : List (String × ℚ)
deriving Repr, DecidableEq

/-- The all-zero totals: what `main` shows before any segment is added. -/
def RouteTotals.zero : RouteTotals := ⟨0, 0, 0, [], []⟩

/-- One step of the accumulation loops in `main`: add one segment result to the
running totals, the `mode_emissions` dict and the `category_emissions` dict. -/
def aggregateStep (acc : RouteTotals) (r : SegmentResult) : RouteTotals :=
  { total_emissions_kg := acc.total_emissions_kg + r.total_emissions_kg
    total_distance_km := acc.total_distance_km + r.distance_km
    total_weight_kg := acc.total_weight_kg + r.weight_kg
    emissions_by_mode := addToDict acc.emissions_by_mode (internal_mode r) r.total_emissions_kg
    emissions_by_group := addToDict acc.emissions_by_group r.transport_group r.total_emissions_kg }

/-- Embedding of the aggregation loops of `main` of `MM_transport_emissions.py`:
running sums of emissions, distance and weight, plus the per-mode and
per-category emission dicts built for the two pie charts. -/
def aggregate (results : List SegmentResult) : RouteTotals :=
  results.foldl aggregateStep RouteTotals.zero

/-- The per-segment emission results `main` computes from the stored route.
The mode comes from a select box over the table's keys, so the lookup never
fails there; a failing segment would abort the render, so the result list
holds exactly the successful computations. -/
def route_results (route : List Segment) : List SegmentResult :=
  route.filterMap (fun s => calculate_emissions 0 s.weight s.distance s.mode)

/-- Step of the coordinate walk of `dynamic_supply_chain_diagram` of
`MM_transport_emissions.py`: `next_x = x + 1` and
`next_y = y + (0.5 if idx % 2 == 0 else -0.5)`. -/
def layout_next (idx : Nat) (p : ℚ × ℚ) : ℚ × ℚ :=
  (p.1 + 1, p.2 + (if idx % 2 = 0 then 0.5 else -0.5))

/-- The node reached after the first `k` segments of the diagram walk, which
starts at `x, y = 0, 0`. -/
def node_position : Nat → ℚ × ℚ
  | 0 => (0, 0)
  | k + 1 => layout_next k (node_position k)

/-- The coordinate pair the diagram assigns to each segment: the endpoint of
the segment's curved line, one per segment, in order. -/
def segment_endpoints (segments : List Segment) : List (ℚ × ℚ) :=
  (List.range segments.length).map (fun i => node_position (i + 1))

end MM

/-- Embedding of `delete_segment(index)`:
`st.session_state.route_segments.pop(index)` (same body in all three
variants). -/
def delete_segment (route : List Segment) (index : Nat) : List Segment :=
  route.eraseIdx index

namespace Calc3

/-- Embedding of `self.emission_factors` of `calculator3.py`. -/
def emission_factors : List (String × ℚ) :=
  [("car", 0.171), ("truck", 0.096), ("mini_truck", 0.137), ("railway", 0.028),
   ("seaway", 0.008)]

/-- Embedding of `self.mode_groups` of `calculator3.py`. -/
def mode_groups : List (String × List String) :=
  [("roadways", ["car", "truck", "mini_truck"]), ("railways", ["railway"]),
   ("seaways", ["seaway"])]

/-- Embedding of
`next((group for group, modes in self.mode_groups.items() if m in modes), 'other')`. -/
def transport_group_of (m : String) : String :=
  ((mode_groups.find? (fun p => p.2.contains m)).map Prod.fst).getD "other"

/-- The dict returned by `calculate_emissions` of `calculator3.py`
(no display name in this variant). -/
structure SegmentResult where
  timestamp : Nat
  transport_mode : String
  transport_group : String
  weight_kg : ℚ
  distance_km : ℚ
  total_emissions_kg : ℚ
  efficiency_kg_per_tonne_km : ℚ
deriving Repr, DecidableEq

/-- Embedding of `MultimodalCarbonFootprintCalculator.calculate_emissions` of
`calculator3.py`; identical in shape to the MM variant except for the table,
the group names and the absent display name. -/
def calculate_emissions (ts : Nat) (weight_kg distance_km : ℚ)
    (transport_mode : String) : Option SegmentResult :=
  let weight_tonnes := weight_kg / 1000
  match dictGet emission_factors (pylower transport_mode) with
  | none => none
  | some emission_factor =>
    if emission_factor = 0 then none
    else
      let emissions := weight_tonnes * distance_km * emission_factor
      let efficiency := emissions / (weight_tonnes * distance_km)
      some
        { timestamp := ts
          transport_mode := transport_mode
          transport_group := transport_group_of (pylower transport_mode)
          weight_kg := weight_kg
          distance_km := distance_km
          total_emissions_kg := emissions
          efficiency_kg_per_tonne_km := efficiency }

/-- A segment result of this variant with its display timestamp normalized
away. -/
def stripTimestamp (r : SegmentResult) : SegmentResult :=
  { r with timestamp := 0 }

end Calc3

namespace Viz

/-- Embedding of `self.emission_factors` of `carbon_footprint_viz.py`. -/
def emission_factors : List (String × ℚ) :=
  [("car", 0.171), ("truck", 0.096), ("mini_truck", 0.137), ("railway", 0.028),
   ("seaway", 0.008)]

/-- The dict returned by `calculate_emissions` of `carbon_footprint_viz.py`. -/
structure SegmentResult where
  transport_mode : String
  weight_kg : ℚ
  distance_km : ℚ
  total_emissions_kg : ℚ
deriving Repr, DecidableEq

/-- Embedding of `MultimodalCarbonFootprintCalculator.calculate_emissions` of
`carbon_footprint_viz.py`.  This variant has no explicit mode check: when the
lookup yields `None`, the multiplication `weight_tonnes * distance_km * None`
raises a `TypeError`, so the call still fails (`none`) exactly on a missing
key — but as an unintended crash, not the guarded `ValueError`. -/
def calculate_emissions (weight_kg distance_km : ℚ)
    (transport_mode : String) : Option SegmentResult :=
  let weight_tonnes := weight_kg / 1000
  match dictGet emission_factors (pylower transport_mode) with
  | none => none
  | some emission_factor =>
    some
      { transport_mode := transport_mode
        weight_kg := weight_kg
        distance_km := distance_km
        total_emissions_kg := weight_tonnes * distance_km * emission_factor }

end Viz

/-! ### Helper lemmas -/

theorem sumValues_nil : sumValues [] = 0 := rfl

theorem sumValues_addToDict (d : List (String × ℚ)) (k : String) (v : ℚ) :
    sumValues (addToDict d k v) = sumValues d + v := by
  induction d with
  | nil => simp [addToDict, sumValues]
  | cons p rest ih =>
    by_cases h : (p.1 == k) = true
    · simp [addToDict, h, sumValues]
      ring
    · simp only [addToDict, if_neg h, sumValues, List.map_cons, List.sum_cons] at *
      rw [ih]
      ring

theorem MM.factor_pos_mm {k : String} {f : ℚ}
    (h : dictGet MM.emission_factors k = some f) : 0 < f := by
  unfold dictGet at h
  rcases Option.map_eq_some'.mp h with ⟨p, hp, rfl⟩
  have hmem := List.mem_of_find?_eq_some hp
  simp only [MM.emission_factors] at hmem
  fin_cases hmem <;> norm_num

theorem Calc3.factor_pos_calc3 {k : String} {f : ℚ}
    (h : dictGet Calc3.emission_factors k = some f) : 0 < f := by
  unfold dictGet at h
  rcases Option.map_eq_some'.mp h with ⟨p, hp, rfl⟩
  have hmem := List.mem_of_find?_eq_some hp
  simp only [Calc3.emission_factors] at hmem
  fin_cases hmem <;> norm_num

/-! ### Claim theorems -/

/-- C1: for positive weight and distance and a mode present in the factor
table, `calculate_emissions` returns a result whose `total_emissions_kg` is
`(weight_kg / 1000) * distance_km * factor(mode_id)`, in both the
`MM_transport_emissions.py` and the `calculator3.py` variant, each relative
to its own factor table. -/
theorem C1_total_emissions_formula (ts : Nat) (w d : ℚ) (m : String)
    (hw : 0 < w) (hd : 0 < d) :
    (∀ f : ℚ, dictGet MM.emission_factors (pylower m) = some f →
      (MM.calculate_emissions ts w d m).map MM.SegmentResult.total_emissions_kg
        = some (w / 1000 * d * f))
    ∧ (∀ g : ℚ, dictGet Calc3.emission_factors (pylower m) = some g →
      (Calc3.calculate_emissions ts w d m).map Calc3.SegmentResult.total_emissions_kg
        = some (w / 1000 * d * g)) := by
  constructor
  · intro f hf
    simp only [MM.calculate_emissions, hf]
    rw [if_neg (ne_of_gt (MM.factor_pos_mm hf))]
    rfl
  · intro g hg
    simp only [Calc3.calculate_emissions, hg]
    rw [if_neg (ne_of_gt (Calc3.factor_pos_calc3 hg))]
    rfl

theorem C1_total_emissions_formula_witness :
    (0:ℚ) < 1000 ∧ (0:ℚ) < 200
    ∧ ((MM.calculate_emissions 0 1000 200 "car").map MM.SegmentResult.total_emissions_kg
        = some (1000 / 1000 * 200 * 0.158))
    ∧ ((Calc3.calculate_emissions 0 1000 200 "car").map Calc3.SegmentResult.total_emissions_kg
        = some (1000 / 1000 * 200 * 0.171))
    ∧ ((MM.calculate_emissions 0 1000 200 "air").map MM.SegmentResult.total_emissions_kg
        = some (1000 / 1000 * 200 * 0.805)) :=
  ⟨by norm_num, by norm_num,
   (C1_total_emissions_formula 0 1000 200 "car" (by norm_num) (by norm_num)).1 0.158 rfl,
   (C1_total_emissions_formula 0 1000 200 "car" (by norm_num) (by norm_num)).2 0.171 rfl,
   (C1_total_emissions_formula 0 1000 200 "air" (by norm_num) (by norm_num)).1 0.805 rfl⟩

/-- C3: for positive weight and distance and a mode present in the factor
table, the `efficiency_kg_per_tonne_km` field equals the table factor exactly,
in both the `MM_transport_emissions.py` and the `calculator3.py` variant,
each relative to its own factor table. -/
theorem C3_efficiency_equals_factor (ts : Nat) (w d : ℚ) (m : String)
    (hw : 0 < w) (hd : 0 < d) :
    (∀ f : ℚ, dictGet MM.emission_factors (pylower m) = some f →
      (MM.calculate_emissions ts w d m).map MM.SegmentResult.efficiency_kg_per_tonne_km
        = some f)
    ∧ (∀ g : ℚ, dictGet Calc3.emission_factors (pylower m) = some g →
      (Calc3.calculate_emissions ts w d m).map Calc3.SegmentResult.efficiency_kg_per_tonne_km
        = some g) := by
  have hc : w / 1000 * d ≠ 0 :=
    mul_ne_zero (div_ne_zero (ne_of_gt hw) (by norm_num)) (ne_of_gt hd)
  constructor
  · intro f hf
    simp only [MM.calculate_emissions, hf]
    rw [if_neg (ne_of_gt (MM.factor_pos_mm hf))]
    show some (w / 1000 * d * f / (w / 1000 * d)) = some f
    exact congrArg some (mul_div_cancel_left₀ f hc)
  · intro g hg
    simp only [Calc3.calculate_emissions, hg]
    rw [if_neg (ne_of_gt (Calc3.factor_pos_calc3 hg))]
    show some (w / 1000 * d * g / (w / 1000 * d)) = some g
    exact congrArg some (mul_div_cancel_left₀ g hc)

theorem C3_efficiency_equals_factor_witness :
    (0:ℚ) < 500 ∧ (0:ℚ) < 400
    ∧ ((MM.calculate_emissions 0 500 400 "truck").map MM.SegmentResult.efficiency_kg_per_tonne_km
        = some 0.088)
    ∧ ((Calc3.calculate_emissions 0 500 400 "truck").map Calc3.SegmentResult.efficiency_kg_per_tonne_km
        = some 0.096)
    ∧ ((MM.calculate_emissions 0 500 400 "barge").map MM.SegmentResult.efficiency_kg_per_tonne_km
        = some 0.035) :=
  ⟨by norm_num, by norm_num,
   (C3_efficiency_equals_factor 0 500 400 "truck" (by norm_num) (by norm_num)).1 0.088 rfl,
   (C3_efficiency_equals_factor 0 500 400 "truck" (by norm_num) (by norm_num)).2 0.096 rfl,
   (C3_efficiency_equals_factor 0 500 400 "barge" (by norm_num) (by norm_num)).1 0.035 rfl⟩

/-- C4: with the `MM_transport_emissions.py` factor table (car 0.158,
truck 0.088), the segment (1000 kg, 200 km, car) yields 31.6 kg, the segment
(500 kg, 400 km, truck) yields 17.6 kg, and aggregating the two yields a
total of 49.2 kg CO2. -/
theorem C4_concrete_scenario :
    (MM.calculate_emissions 0 1000 200 "car").map MM.SegmentResult.total_emissions_kg
      = some 31.6
    ∧ (MM.calculate_emissions 0 500 400 "truck").map MM.SegmentResult.total_emissions_kg
      = some 17.6
    ∧ (MM.aggregate (MM.route_results
        [⟨"car", 200, 1000⟩, ⟨"truck", 400, 500⟩])).total_emissions_kg = 49.2 := by
  refine ⟨?_, ?_, ?_⟩ <;>
    · simp [MM.calculate_emissions, MM.route_results, MM.aggregate, MM.aggregateStep,
        MM.RouteTotals.zero, dictGet, MM.emission_factors, pylower, lowerChar, List.find?,
        List.filterMap_cons, List.filterMap_nil, List.foldl_cons, List.foldl_nil]
      norm_num [MM.aggregateStep]

/-- C5: aggregating an empty segment sequence does not fail and yields zero
total emissions, distance and weight, and empty by-mode and by-group dicts. -/
theorem C5_empty_aggregate :
    MM.aggregate [] =
      { total_emissions_kg := 0, total_distance_km := 0, total_weight_kg := 0,
        emissions_by_mode := [], emissions_by_group := [] } :=
  rfl

/-- C2: in every variant the `calculate_emissions` operation is rejected
exactly when the lowercased mode identifier has no entry in the factor table,
and succeeds (never silently defaulted) otherwise.  For the
`carbon_footprint_viz.py` variant the rejection is an unintended `TypeError`
rather than the guarded error, but it is still surfaced, not defaulted. -/
theorem C2_unknown_mode_rejection (ts : Nat) (w d : ℚ) (m : String) :
    (MM.calculate_emissions ts w d m = none
      ↔ dictGet MM.emission_factors (pylower m) = none)
    ∧ (Calc3.calculate_emissions ts w d m = none
      ↔ dictGet Calc3.emission_factors (pylower m) = none)
    ∧ (Viz.calculate_emissions w d m = none
      ↔ dictGet Viz.emission_factors (pylower m) = none) := by
  refine ⟨?_, ?_, ?_⟩
  · cases h : dictGet MM.emission_factors (pylower m) with
    | none => simp [MM.calculate_emissions, h]
    | some f =>
      simp only [MM.calculate_emissions, h]
      rw [if_neg (ne_of_gt (MM.factor_pos_mm h))]
      simp
  · cases h : dictGet Calc3.emission_factors (pylower m) with
    | none => simp [Calc3.calculate_emissions, h]
    | some f =>
      simp only [Calc3.calculate_emissions, h]
      rw [if_neg (ne_of_gt (Calc3.factor_pos_calc3 h))]
      simp
  · cases h : dictGet Viz.emission_factors (pylower m) with
    | none => simp [Viz.calculate_emissions, h]
    | some f => simp [Viz.calculate_emissions, h]

/-- C8: `calculate_emissions` is a pure function of weight, distance and mode:
two calls with the same arguments but different timestamps agree on every
field except the timestamp (in particular on total emissions, efficiency and
transport group), in both the MM and the calculator3 variant. -/
theorem C8_pure_up_to_timestamp (ts1 ts2 : Nat) (w d : ℚ) (m : String) :
    (MM.calculate_emissions ts1 w d m).map MM.stripTimestamp
      = (MM.calculate_emissions ts2 w d m).map MM.stripTimestamp
    ∧ (MM.calculate_emissions ts1 w d m).map MM.numeric_fields
      = (MM.calculate_emissions ts2 w d m).map MM.numeric_fields
    ∧ (Calc3.calculate_emissions ts1 w d m).map Calc3.stripTimestamp
      = (Calc3.calculate_emissions ts2 w d m).map Calc3.stripTimestamp := by
  refine ⟨?_, ?_, ?_⟩
  · cases h : dictGet MM.emission_factors (pylower m) with
    | none => simp [MM.calculate_emissions, h]
    | some f =>
      by_cases hf : f = 0 <;>
        simp [MM.calculate_emissions, h, hf, MM.stripTimestamp]
  · cases h : dictGet MM.emission_factors (pylower m) with
    | none => simp [MM.calculate_emissions, h]
    | some f =>
      by_cases hf : f = 0 <;>
        simp [MM.calculate_emissions, h, hf, MM.numeric_fields]
  · cases h : dictGet Calc3.emission_factors (pylower m) with
    | none => simp [Calc3.calculate_emissions, h]
    | some f =>
      by_cases hf : f = 0 <;>
        simp [Calc3.calculate_emissions, h, hf, Calc3.stripTimestamp]

theorem MM.aggregate_partition_aux (results : List MM.SegmentResult)
    (acc : MM.RouteTotals) :
    ((results.foldl MM.aggregateStep acc).total_emissions_kg
      = acc.total_emissions_kg + (results.map MM.SegmentResult.total_emissions_kg).sum)
    ∧ (sumValues (results.foldl MM.aggregateStep acc).emissions_by_mode
      = sumValues acc.emissions_by_mode
        + (results.map MM.SegmentResult.total_emissions_kg).sum)
    ∧ (sumValues (results.foldl MM.aggregateStep acc).emissions_by_group
      = sumValues acc.emissions_by_group
        + (results.map MM.SegmentResult.total_emissions_kg).sum) := by
  induction results generalizing acc with
  | nil => simp
  | cons r rest ih =>
    obtain ⟨h1, h2, h3⟩ := ih (MM.aggregateStep acc r)
    simp only [List.foldl_cons, List.map_cons, List.sum_cons]
    refine ⟨?_, ?_, ?_⟩
    · rw [h1]
      simp only [MM.aggregateStep]
      ring
    · rw [h2]
      simp only [MM.aggregateStep, sumValues_addToDict]
      ring
    · rw [h3]
      simp only [MM.aggregateStep, sumValues_addToDict]
      ring

/-- C10: the per-mode emissions dict and the per-group emissions dict built by
the aggregation loop each partition the grand total: their values sum to the
accumulated total emissions. -/
theorem C10_breakdowns_partition_total (results : List MM.SegmentResult) :
    sumValues (MM.aggregate results).emissions_by_mode
      = (MM.aggregate results).total_emissions_kg
    ∧ sumValues (MM.aggregate results).emissions_by_group
      = (MM.aggregate results).total_emissions_kg := by
  obtain ⟨h1, h2, h3⟩ := MM.aggregate_partition_aux results MM.RouteTotals.zero
  unfold MM.aggregate
  constructor
  · rw [h2, h1]
    simp [MM.RouteTotals.zero, sumValues]
  · rw [h3, h1]
    simp [MM.RouteTotals.zero, sumValues]

theorem MM.calc_numerics_congr (ts : Nat) (w d : ℚ) (m m' : String)
    (h : pylower m' = pylower m) :
    dictGet MM.emission_factors (pylower m') = dictGet MM.emission_factors (pylower m)
    ∧ (MM.calculate_emissions ts w d m').map MM.numeric_fields
      = (MM.calculate_emissions ts w d m).map MM.numeric_fields := by
  refine ⟨by rw [h], ?_⟩
  cases hm : dictGet MM.emission_factors (pylower m) with
  | none => simp [MM.calculate_emissions, h, hm]
  | some f =>
    by_cases hf : f = 0 <;>
      simp [MM.calculate_emissions, h, hm, hf, MM.numeric_fields]

/-- C6 counterexample: looking up the upper-case spelling and the lower-case
spelling does NOT give the same `calculate_emissions` result: the returned
dict echoes the caller's spelling in `transport_mode`, and the display-name
lookup uses the non-lowercased mode, so "TRUCK" yields display name "TRUCK"
while "truck" yields "Heavy Truck". -/
theorem C6_counterexample :
    MM.calculate_emissions 0 1000 200 "TRUCK"
      ≠ MM.calculate_emissions 0 1000 200 "truck" := by
  have hl1 : dictGet MM.emission_factors (pylower "TRUCK") = some 0.088 := rfl
  have hl2 : dictGet MM.emission_factors (pylower "truck") = some 0.088 := rfl
  have h1 : (MM.calculate_emissions 0 1000 200 "TRUCK").map MM.SegmentResult.display_name
      = some "TRUCK" := by
    simp only [MM.calculate_emissions, hl1]
    rw [if_neg (show ¬(0.088:ℚ) = 0 by norm_num)]
    rfl
  have h2 : (MM.calculate_emissions 0 1000 200 "truck").map MM.SegmentResult.display_name
      = some "Heavy Truck" := by
    simp only [MM.calculate_emissions, hl2]
    rw [if_neg (show ¬(0.088:ℚ) = 0 by norm_num)]
    rfl
  intro heq
  rw [heq, h2] at h1
  exact absurd (Option.some.inj h1) (by decide)

/-- C6 amended: for every mode identifier in the factor table, the upper-case
and the lower-case spelling retrieve the identical factor-table entry, and
`calculate_emissions` returns the same total emissions, efficiency and
transport group for both spellings — but the echoed `transport_mode` and
`display_name` fields keep the caller's spelling, so the full result dicts
differ. -/
theorem C6_case_insensitive_lookup (ts : Nat) (w d : ℚ) (m : String)
    (hm : m ∈ MM.emission_factors.map Prod.fst) :
    dictGet MM.emission_factors (pylower (pyupper m))
      = dictGet MM.emission_factors (pylower m)
    ∧ (MM.calculate_emissions ts w d (pyupper m)).map MM.numeric_fields
      = (MM.calculate_emissions ts w d m).map MM.numeric_fields := by
  simp only [MM.emission_factors, List.map_cons, List.map_nil] at hm
  fin_cases hm <;> exact MM.calc_numerics_congr ts w d _ _ rfl

theorem C6_case_insensitive_lookup_witness :
    ("truck" ∈ MM.emission_factors.map Prod.fst)
    ∧ (dictGet MM.emission_factors (pylower (pyupper "truck"))
        = dictGet MM.emission_factors (pylower "truck")
      ∧ (MM.calculate_emissions 0 1000 200 (pyupper "truck")).map MM.numeric_fields
        = (MM.calculate_emissions 0 1000 200 "truck").map MM.numeric_fields) :=
  ⟨by decide, C6_case_insensitive_lookup 0 1000 200 "truck" (by decide)⟩

/-- C7: deleting the segment at a valid index `i` shortens the route by one,
keeps every earlier segment at its position, moves every later segment down by
one index, and deleting the only segment of a one-element route leaves an
empty route whose aggregate totals are all zero. -/
theorem C7_delete_segment_shifts (route : List Segment) (i : Nat)
    (h : i < route.length) :
    (delete_segment route i).length = route.length - 1
    ∧ (∀ j, j < i → ∀ (h1 : j < (delete_segment route i).length)
        (h2 : j < route.length), (delete_segment route i)[j] = route[j])
    ∧ (∀ j, i ≤ j → ∀ (h1 : j < (delete_segment route i).length)
        (h2 : j + 1 < route.length), (delete_segment route i)[j] = route[j + 1])
    ∧ (route.length = 1 →
        delete_segment route i = []
        ∧ MM.aggregate (MM.route_results (delete_segment route i))
          = MM.RouteTotals.zero) := by
  refine ⟨List.length_eraseIdx_of_lt h, ?_, ?_, ?_⟩
  · intro j hj h1 h2
    exact List.getElem_eraseIdx_of_lt route i j h1 hj
  · intro j hj h1 h2
    exact List.getElem_eraseIdx_of_ge route i j h1 hj
  · intro hlen
    have h0 : (delete_segment route i).length = 0 := by
      rw [show (delete_segment route i).length = route.length - 1 from
            List.length_eraseIdx_of_lt h, hlen]
    have hnil : delete_segment route i = [] := List.length_eq_zero.mp h0
    exact ⟨hnil, by rw [hnil]; rfl⟩

theorem C7_delete_segment_shifts_witness :
    (0 < ([⟨"car", 200, 1000⟩, ⟨"truck", 400, 500⟩] : List Segment).length)
    ∧ ((delete_segment [⟨"car", 200, 1000⟩, ⟨"truck", 400, 500⟩] 0).length
        = ([⟨"car", 200, 1000⟩, ⟨"truck", 400, 500⟩] : List Segment).length - 1
      ∧ (∀ j, j < 0 → ∀ (h1 : j < (delete_segment [⟨"car", 200, 1000⟩, ⟨"truck", 400, 500⟩] 0).length)
          (h2 : j < ([⟨"car", 200, 1000⟩, ⟨"truck", 400, 500⟩] : List Segment).length),
          (delete_segment [⟨"car", 200, 1000⟩, ⟨"truck", 400, 500⟩] 0)[j]
            = ([⟨"car", 200, 1000⟩, ⟨"truck", 400, 500⟩] : List Segment)[j])
      ∧ (∀ j, 0 ≤ j → ∀ (h1 : j < (delete_segment [⟨"car", 200, 1000⟩, ⟨"truck", 400, 500⟩] 0).length)
          (h2 : j + 1 < ([⟨"car", 200, 1000⟩, ⟨"truck", 400, 500⟩] : List Segment).length),
          (delete_segment [⟨"car", 200, 1000⟩, ⟨"truck", 400, 500⟩] 0)[j]
            = ([⟨"car", 200, 1000⟩, ⟨"truck", 400, 500⟩] : List Segment)[j + 1])
      ∧ (([⟨"car", 200, 1000⟩, ⟨"truck", 400, 500⟩] : List Segment).length = 1 →
          delete_segment [⟨"car", 200, 1000⟩, ⟨"truck", 400, 500⟩] 0 = []
          ∧ MM.aggregate (MM.route_results
              (delete_segment [⟨"car", 200, 1000⟩, ⟨"truck", 400, 500⟩] 0))
            = MM.RouteTotals.zero)) :=
  ⟨by simp, C7_delete_segment_shifts [⟨"car", 200, 1000⟩, ⟨"truck", 400, 500⟩] 0 (by simp)⟩

theorem MM.node_position_fst (k : Nat) : (MM.node_position k).1 = (k : ℚ) := by
  induction k with
  | zero => simp [MM.node_position]
  | succ n ih =>
    simp only [MM.node_position, MM.layout_next, ih]
    push_cast
    ring

/-- C9: for every non-empty segment list the diagram layout assigns each
segment exactly one coordinate pair (the endpoint of its leg), the x values of
those coordinates are strictly increasing with segment index, and the
positions depend only on segment index and segment count, not on the segment
contents. -/
theorem C9_diagram_layout (segments : List Segment) (hne : segments ≠ []) :
    (MM.segment_endpoints segments).length = segments.length
    ∧ (MM.segment_endpoints segments).Pairwise (fun a b => a.1 < b.1)
    ∧ (∀ other : List Segment, other.length = segments.length →
        MM.segment_endpoints other = MM.segment_endpoints segments) := by
  refine ⟨by simp [MM.segment_endpoints], ?_, ?_⟩
  · refine List.Pairwise.map _ ?_ (List.pairwise_lt_range segments.length)
    intro a b hab
    rw [MM.node_position_fst, MM.node_position_fst]
    exact_mod_cast Nat.succ_lt_succ hab
  · intro other hlen
    unfold MM.segment_endpoints
    rw [hlen]

theorem C9_diagram_layout_witness :
    (([⟨"car", 200, 1000⟩, ⟨"truck", 400, 500⟩] : List Segment) ≠ [])
    ∧ ((MM.segment_endpoints [⟨"car", 200, 1000⟩, ⟨"truck", 400, 500⟩]).length
        = ([⟨"car", 200, 1000⟩, ⟨"truck", 400, 500⟩] : List Segment).length
      ∧ (MM.segment_endpoints [⟨"car", 200, 1000⟩, ⟨"truck", 400, 500⟩]).Pairwise
          (fun a b => a.1 < b.1)
      ∧ (∀ other : List Segment,
          other.length = ([⟨"car", 200, 1000⟩, ⟨"truck", 400, 500⟩] : List Segment).length →
          MM.segment_endpoints other
            = MM.segment_endpoints [⟨"car", 200, 1000⟩, ⟨"truck", 400, 500⟩])) :=
  ⟨by simp, C9_diagram_layout [⟨"car", 200, 1000⟩, ⟨"truck", 400, 500⟩] (by simp)⟩
